import Mathlib

/-
  Shallow embedding of src/mad-lab-main/page/DisplayImage.jsx
  (the RealFaceDetection screen): its state, event handlers and render
  logic, with the asynchronous external collaborators (camera, file
  system, TensorFlow runtime, BlazeFace model) abstracted as explicit
  outcome parameters.  Numeric values coming from the model (scores,
  coordinates) are embedded as rationals; no arithmetic beyond copying
  is performed on them by the screen, so this loses nothing relevant.
-/

namespace DisplayImage

/-- Landmark entry produced by the prediction mapping: the source builds
objects of shape `\x7b part, x, y \x7d` (DisplayImage.jsx lines 71-75). -/
structure Landmark where
  part : String
  x : Rat
  y : Rat
deriving DecidableEq, Repr

/-- Detection built by `detectFaces` from a raw prediction
(DisplayImage.jsx lines 66-77).  The source field named `class` is a Lean
keyword, hence `class_` here. -/
structure Detection where
  class_ : String
  score : Rat
  boundingBox : List Rat
  landmarks : List Landmark
deriving DecidableEq, Repr

/-- Raw prediction as returned by `model.estimateFaces` per the BlazeFace
interface: `probability` a one-element array, `topLeft` and `bottomRight`
coordinate pairs, `landmarks` an array of `[x, y]` pairs. -/
structure Prediction where
  probability : List Rat
  topLeft : List Rat
  bottomRight : List Rat
  landmarks : List (List Rat)
deriving DecidableEq, Repr

/-- Loaded BlazeFace model handle; the screen treats it as a black box,
only testing it for null-ness. -/
structure ModelHandle where
deriving DecidableEq, Repr

/-- The component state: the six useState/null-initialised fields of
RealFaceDetection (DisplayImage.jsx lines 13-19).  `hasPermission` is
`none` while the permission request is pending, mirroring `null`. -/
structure ScreenState where
  hasPermission : Option Bool
  image : Option String
  detections : List Detection
  isLoading : Bool
  isTfReady : Bool
  model : Option ModelHandle
deriving DecidableEq, Repr

/-- Initial state at mount (DisplayImage.jsx lines 13-19). -/
def initialState : ScreenState :=
  { hasPermission := none, image := none, detections := [], isLoading := false,
    isTfReady := false, model := none }

/-- JavaScript truthiness of the `image` state: `null` and the empty
string are falsy, every other string is truthy. -/
def jsTruthyStr : Option String → Bool
  | none => false
  | some s => s ≠ ""

/-- Guard of `detectFaces` (DisplayImage.jsx line 51): `if (image && model)`. -/
def detectGuard (s : ScreenState) : Bool :=
  jsTruthyStr s.image && s.model.isSome

/-- The i-th landmark object built by the prediction mapping
(DisplayImage.jsx lines 71-75): part name together with
`prediction.landmarks[i][0]` and `prediction.landmarks[i][1]`. -/
def landmarkAt (p : Prediction) (i : Nat) (part : String) : Landmark :=
  { part := part
    x := (p.landmarks.getD i []).getD 0 0
    y := (p.landmarks.getD i []).getD 1 0 }

/-- Mapping of one raw prediction to a Detection (DisplayImage.jsx
lines 66-77): fixed label, first probability entry as score, bounding box
as topLeft concatenated with bottomRight, and the five named landmarks in
the fixed source order. -/
def mapPrediction (p : Prediction) : Detection :=
  { class_ := "Hursun"
    score := p.probability.getD 0 0
    boundingBox := p.topLeft ++ p.bottomRight
    landmarks :=
      [ landmarkAt p 0 "left_eye"
      , landmarkAt p 1 "right_eye"
      , landmarkAt p 2 "nose"
      , landmarkAt p 3 "mouth_left"
      , landmarkAt p 4 "mouth_right" ] }

/-- Outcome of the asynchronous pipeline inside `detectFaces`'s `try`
block (file read, decode, inference): either some step throws, or the
model returns a list of raw predictions. -/
inductive DetectOutcome where
  | throws
  | returns (predictions : List Prediction)
deriving DecidableEq, Repr

/-- Record of one `detectFaces` invocation: `trace` lists the component
states after each state update in the order the updates are issued, and
`log` lists the messages written to the error log. -/
structure DetectRun where
  trace : List ScreenState
  log : List String
deriving DecidableEq, Repr

/-- Final state of a run that started from `s`: the last state of the
trace, or `s` itself when no update was issued. -/
def DetectRun.finalState (r : DetectRun) (s : ScreenState) : ScreenState :=
  r.trace.getLastD s

/-- The `detectFaces` handler (DisplayImage.jsx lines 50-89).  Guarded by
`if (image && model)`; inside the guard it sets the loading flag, runs
the pipeline, on success replaces the detections (with the mapped array
when there is at least one prediction, with the empty array otherwise),
on an exception logs the error and leaves the detections untouched, and
in the `finally` clause always clears the loading flag. -/
def detectFaces (outcome : DetectOutcome) (s : ScreenState) : DetectRun :=
  if detectGuard s then
    let s1 := { s with isLoading := true }
    match outcome with
    | .returns predictions =>
        let s2 :=
          if predictions.length > 0 then
            { s1 with detections := predictions.map mapPrediction }
          else
            { s1 with detections := [] }
        let s3 := { s2 with isLoading := false }
        { trace := [s1, s2, s3], log := [] }
    | .throws =>
        let s3 := { s1 with isLoading := false }
        { trace := [s1, s3], log := ["Detection Error:"] }
  else
    { trace := [], log := [] }

/-- The "Capture Another Photo" handler (DisplayImage.jsx line 138):
`onPress=\x7b() => setImage(null)\x7d`. -/
def reset (s : ScreenState) : ScreenState :=
  { s with image := none }

/-- The `takePicture` handler (DisplayImage.jsx lines 43-48): when the
camera ref is bound, capture resolves with a photo and its uri is stored. -/
def takePicture (cameraRefBound : Bool) (photoUri : String) (s : ScreenState) : ScreenState :=
  if cameraRefBound then { s with image := some photoUri } else s

/-- What the component renders (DisplayImage.jsx lines 108-170), reduced
to the observables the spec talks about.  `reviewView` carries whether
the ActivityIndicator shows, which detection list is rendered, and
whether the "No Face detected" message shows. -/
inductive View where
  | emptyView
  | noAccessText
  | cameraView
  | reviewView (loadingIndicator : Bool) (detectionList : List Detection)
      (noFaceMessage : Bool)
deriving DecidableEq, Repr

/-- Render function of RealFaceDetection (DisplayImage.jsx lines
108-170): `null` permission renders an empty View, denied permission the
"No access to camera" text; otherwise the camera view when no image is
stored, and the review view when one is.  In the review view the
ActivityIndicator shows iff `isLoading`, the detection list shows iff
`detections.length > 0`, and the no-face message shows iff the list is
empty and not loading. -/
def render (s : ScreenState) : View :=
  match s.hasPermission with
  | none => .emptyView
  | some false => .noAccessText
  | some true =>
      if jsTruthyStr s.image then
        .reviewView s.isLoading
          (if s.detections.length > 0 then s.detections else [])
          (decide (s.detections.length > 0) = false && !s.isLoading)
      else
        .cameraView

/-- The no-face message of a rendered view. -/
def View.showsNoFace : View → Bool
  | .reviewView _ _ nf => nf
  | _ => false

/-- The loading indicator of a rendered view. -/
def View.showsLoading : View → Bool
  | .reviewView l _ _ => l
  | _ => false

/-- The detection list of a rendered view. -/
def View.shownDetections : View → List Detection
  | .reviewView _ dl _ => dl
  | _ => []

/-- Whether a rendered view is the live camera view. -/
def View.isCameraView : View → Bool
  | .cameraView => true
  | _ => false

/-- Events the user or the lifecycle can trigger after the permission
response has arrived: the runtime-ready and model-loaded completions of
the mount effect (DisplayImage.jsx lines 29-34), the "Take Photo" press,
the "Detect Faces" press and the "Capture Another Photo" press.  The
permission request itself fires exactly once at mount and is not among
the in-session events. -/
inductive SessionEvent where
  | tfReadyDone
  | modelLoadDone
  | capturePress (cameraRefBound : Bool) (photoUri : String)
  | detectPress (outcome : DetectOutcome)
  | resetPress
deriving DecidableEq, Repr

/-- State transition for one in-session event, assembled from the
handlers above; `detectPress` takes the final state of the run. -/
def step (e : SessionEvent) (s : ScreenState) : ScreenState :=
  match e with
  | .tfReadyDone => { s with isTfReady := true }
  | .modelLoadDone => { s with model := some {} }
  | .capturePress b uri => takePicture b uri s
  | .detectPress o => (detectFaces o s).finalState s
  | .resetPress => reset s

/-- Folding a list of in-session events over a state. -/
def steps (evs : List SessionEvent) (s : ScreenState) : ScreenState :=
  evs.foldl (fun st e => step e st) s

/-- Completion of one of the five asynchronous operations whose result
is applied back to component state. -/
inductive AsyncResult where
  | permission (granted : Bool)
  | runtimeReady
  | modelLoaded
  | captureDone (uri : String)
  | detectionDone (outcome : DetectOutcome)
deriving DecidableEq, Repr

/-- Application of an async completion to the state, with the mount flag
as it stands when the completion arrives.  The mount effect's three
completions are guarded by `if (isMounted)` (DisplayImage.jsx lines 26,
30, 34); the `takePicture` completion (line 46) and the `detectFaces`
state updates (lines 52-86) consult no mount flag in the source and are
applied unconditionally. -/
def applyAsyncResult (isMounted : Bool) (r : AsyncResult) (s : ScreenState) : ScreenState :=
  match r with
  | .permission granted =>
      if isMounted then { s with hasPermission := some granted } else s
  | .runtimeReady =>
      if isMounted then { s with isTfReady := true } else s
  | .modelLoaded =>
      if isMounted then { s with model := some {} } else s
  | .captureDone uri =>
      { s with image := some uri }
  | .detectionDone o =>
      (detectFaces o s).finalState s

/-- Visible mark left on the overlay canvas: a filled circle of a given
radius and fill style at given coordinates. -/
structure CanvasMark where
  x : Rat
  y : Rat
  radius : Rat
  fillStyle : String
deriving DecidableEq, Repr

/-- Canvas content: the marks currently visible, in drawing order. -/
abbrev Canvas := List CanvasMark

/-- Marks drawn by the overlay loop (DisplayImage.jsx lines 95-103): for
each detection, for each of its landmarks, a filled red circle of radius
5 at the landmark's coordinates. -/
def overlayMarks (detections : List Detection) : Canvas :=
  detections.flatMap fun d =>
    d.landmarks.map fun l => { x := l.x, y := l.y, radius := 5, fillStyle := "red" }

/-- The `onContextCreate` overlay callback (DisplayImage.jsx lines
91-106) as a transformer of canvas content: when the detection set is
non-empty it clears the canvas (`clearRect` over the full drawing
buffer) and then draws the marks; when the detection set is empty the
whole body is skipped and the canvas is left as it was. -/
def onContextCreate (detections : List Detection) (canvas : Canvas) : Canvas :=
  if detections.length > 0 then overlayMarks detections else canvas

/-- Fixed order of the landmark part names (DisplayImage.jsx lines 71-75). -/
def landmarkOrder : List String :=
  ["left_eye", "right_eye", "nose", "mouth_left", "mouth_right"]

/-- Concrete landmark list for test states. -/
def sampleLandmarks : List Landmark :=
  [ { part := "left_eye", x := 10, y := 20 }
  , { part := "right_eye", x := 30, y := 20 }
  , { part := "nose", x := 20, y := 30 }
  , { part := "mouth_left", x := 12, y := 40 }
  , { part := "mouth_right", x := 28, y := 40 } ]

/-- Concrete detection for test states. -/
def sampleDetection : Detection :=
  { class_ := "Hursun", score := 1, boundingBox := [1, 2, 3, 4],
    landmarks := sampleLandmarks }

/-- Concrete raw prediction whose mapping yields `sampleDetection`. -/
def samplePrediction : Prediction :=
  { probability := [1], topLeft := [1, 2], bottomRight := [3, 4],
    landmarks := [[10, 20], [30, 20], [20, 30], [12, 40], [28, 40]] }

/-- Review-view state: permission granted, an image captured, one
detection stored, model loaded, nothing in flight. -/
def reviewState : ScreenState :=
  { hasPermission := some true, image := some "photo1.jpg",
    detections := [sampleDetection], isLoading := false,
    isTfReady := true, model := some {} }

/-- Review-view state with an empty detection set. -/
def emptyReviewState : ScreenState :=
  { reviewState with detections := [] }

/-- State after the permission request resolved as denied. -/
def deniedState : ScreenState :=
  { initialState with hasPermission := some false }

/-- State after the permission request resolved as granted. -/
def grantedState : ScreenState :=
  { initialState with hasPermission := some true }

/-!  Helper lemmas shared by the claim theorems. -/

/-- The final state of a `detectFaces` run keeps the permission and
image fields of the starting state: every update inside the handler
touches only `isLoading` and `detections`. -/
theorem detectFaces_finalState_frame (o : DetectOutcome) (s : ScreenState) :
    ((detectFaces o s).finalState s).hasPermission = s.hasPermission ∧
    ((detectFaces o s).finalState s).image = s.image := by
  by_cases hg : detectGuard s = true
  · cases o with
    | throws => simp [detectFaces, hg, DetectRun.finalState]
    | returns preds =>
        by_cases hp : preds.length > 0 <;>
          simp [detectFaces, hg, hp, DetectRun.finalState]
  · cases o <;> simp [detectFaces, hg, DetectRun.finalState]

/-- One in-session event never changes the permission field. -/
theorem step_hasPermission (e : SessionEvent) (s : ScreenState) :
    (step e s).hasPermission = s.hasPermission := by
  cases e with
  | tfReadyDone => rfl
  | modelLoadDone => rfl
  | capturePress b uri =>
      cases b <;> simp [step, takePicture]
  | detectPress o => exact (detectFaces_finalState_frame o s).1
  | resetPress => rfl

/-- No sequence of in-session events changes the permission field. -/
theorem steps_hasPermission (evs : List SessionEvent) (s : ScreenState) :
    (steps evs s).hasPermission = s.hasPermission := by
  induction evs generalizing s with
  | nil => rfl
  | cons e evs ih =>
      show (steps evs (step e s)).hasPermission = s.hasPermission
      rw [ih, step_hasPermission]

/-- A view that shows the loading indicator never shows the no-face
message: in the review view the message is conjoined with the negated
loading flag. -/
theorem render_loading_suppresses_noFace (s : ScreenState) :
    ¬((render s).showsLoading = true ∧ (render s).showsNoFace = true) := by
  rintro ⟨hl, hn⟩
  unfold render at hl hn
  rcases hperm : s.hasPermission with _ | b
  · rw [hperm] at hn; simp [View.showsNoFace] at hn
  · cases b
    · rw [hperm] at hn; simp [View.showsNoFace] at hn
    · rw [hperm] at hl hn
      by_cases ht : jsTruthyStr s.image = true
      · simp only [ht, if_true, View.showsLoading] at hl
        simp [ht, View.showsNoFace, hl] at hn
      · simp only [Bool.not_eq_true] at ht
        simp [ht, View.showsNoFace] at hn

/-- In the review view the length of the rendered detection list equals
the length of the stored detection set: the list itself when non-empty,
the empty list (of the same length zero) otherwise. -/
theorem render_shownDetections_length (s : ScreenState)
    (hperm : s.hasPermission = some true) (himg : jsTruthyStr s.image = true) :
    (render s).shownDetections.length = s.detections.length := by
  by_cases hd : s.detections.length > 0
  · simp [render, hperm, himg, hd, View.shownDetections]
  · simp [render, hperm, himg, hd, View.shownDetections]
    omega

/-!  Claim theorems. -/

/-- C1, counterexample: the claim that `reset` clears the detection set
is false.  In the concrete review state holding one detection, pressing
"Capture Another Photo" (which runs only `setImage(null)`) leaves the
detection set non-empty. -/
theorem c1_reset_counterexample :
    (reset reviewState).detections ≠ [] := by
  decide

/-- C1, amended: `reset` clears the stored image handle, so the screen
renders the camera view again (under granted permission), but it does
not touch the detection set, which keeps its pre-reset value; the camera
view itself displays no detections. -/
theorem c1_reset_amended (s : ScreenState) :
    (reset s).image = none ∧
    (reset s).detections = s.detections ∧
    (s.hasPermission = some true →
      render (reset s) = View.cameraView ∧
      (render (reset s)).shownDetections = []) := by
  refine ⟨rfl, rfl, fun h => ?_⟩
  constructor
  · simp [render, reset, h, jsTruthyStr]
  · simp [render, reset, h, jsTruthyStr, View.shownDetections]

/-- C1, witness for the amended theorem at the concrete review state. -/
theorem c1_reset_amended_witness :
    (reset reviewState).image = none ∧
    (reset reviewState).detections = reviewState.detections ∧
    render (reset reviewState) = View.cameraView ∧
    (render (reset reviewState)).shownDetections = [] := by
  have h := c1_reset_amended reviewState
  exact ⟨h.1, h.2.1, h.2.2 rfl⟩

/-- C2: when no image handle exists or the model has not loaded,
`detectFaces` is a no-op: it issues no state update and writes no log,
the final state equals the starting state, and the loading flag is never
set in the run. -/
theorem c2_detectFaces_noop (o : DetectOutcome) (s : ScreenState)
    (h : s.image = none ∨ s.model = none) :
    detectFaces o s = { trace := [], log := [] } ∧
    (detectFaces o s).finalState s = s ∧
    (detectFaces o s).trace.any (fun t => t.isLoading) = false := by
  have hg : detectGuard s = false := by
    rcases h with h | h <;> simp [detectGuard, jsTruthyStr, h]
  cases o <;> simp [detectFaces, hg, DetectRun.finalState]

/-- C2, witness at the initial state (no image, no model). -/
theorem c2_detectFaces_noop_witness :
    detectFaces DetectOutcome.throws initialState = { trace := [], log := [] } ∧
    (detectFaces DetectOutcome.throws initialState).finalState initialState
      = initialState ∧
    (detectFaces DetectOutcome.throws initialState).trace.any
      (fun t => t.isLoading) = false :=
  c2_detectFaces_noop DetectOutcome.throws initialState (Or.inl rfl)

/-- C8: the overlay callback is idempotent — running it twice over the
same detection set leaves the same canvas content as running it once —
and for a non-empty detection set it replaces the canvas with exactly
one fixed-radius filled circular marker per landmark of each detection
(clear-then-redraw, not accumulation). -/
theorem c8_onContextCreate_idempotent (detections : List Detection) (canvas : Canvas) :
    onContextCreate detections (onContextCreate detections canvas)
      = onContextCreate detections canvas ∧
    (detections.length > 0 →
      onContextCreate detections canvas = overlayMarks detections) := by
  constructor
  · by_cases h : detections.length > 0 <;> simp [onContextCreate, h]
  · intro h
    simp [onContextCreate, h]

/-- C8, witness at a concrete one-detection set over an empty canvas. -/
theorem c8_onContextCreate_idempotent_witness :
    onContextCreate [sampleDetection] (onContextCreate [sampleDetection] [])
      = onContextCreate [sampleDetection] [] ∧
    onContextCreate [sampleDetection] [] = overlayMarks [sampleDetection] := by
  have h := c8_onContextCreate_idempotent [sampleDetection] []
  exact ⟨h.1, h.2 (by decide)⟩

/-- C9, counterexample: the claim that no state update is applied after
unmount for any async result is false.  A capture completion arriving
with the mount flag cleared still stores the image handle, because
`takePicture` consults no mount flag. -/
theorem c9_unmount_counterexample :
    applyAsyncResult false (AsyncResult.captureDone "photo2.jpg") initialState
      ≠ initialState := by
  decide

/-- C9, amended: the liveness flag suppresses post-unmount state updates
only for the three lifecycle results handled inside the mount effect
(permission, runtime init, model load); capture and detection
completions apply their state updates identically whether or not the
component is still mounted. -/
theorem c9_unmount_amended (s : ScreenState) (g : Bool) (uri : String)
    (o : DetectOutcome) :
    applyAsyncResult false (AsyncResult.permission g) s = s ∧
    applyAsyncResult false AsyncResult.runtimeReady s = s ∧
    applyAsyncResult false AsyncResult.modelLoaded s = s ∧
    applyAsyncResult false (AsyncResult.captureDone uri) s
      = applyAsyncResult true (AsyncResult.captureDone uri) s ∧
    applyAsyncResult false (AsyncResult.detectionDone o) s
      = applyAsyncResult true (AsyncResult.detectionDone o) s :=
  ⟨rfl, rfl, rfl, rfl, rfl⟩

/-- C10: with an empty detection set the overlay callback draws nothing
and in particular does not clear the canvas — the previous canvas
content is returned unchanged, since the clear step sits inside the
non-empty branch. -/
theorem c10_onContextCreate_empty (canvas : Canvas) :
    onContextCreate [] canvas = canvas := by
  simp [onContextCreate]

/-- C3: when the pipeline throws under a satisfied guard, the loading
flag transitions true then false across the run's updates, every
intermediate state keeps the pre-call detection set, the failure is
logged, and the final state has the pre-call detections with the loading
flag cleared; moreover the loading flag is cleared on exit for every
outcome, success or failure. -/
theorem c3_detectFaces_throws (s : ScreenState) (hg : detectGuard s = true) :
    (detectFaces DetectOutcome.throws s).trace.map (fun t => t.isLoading)
      = [true, false] ∧
    (∀ t ∈ (detectFaces DetectOutcome.throws s).trace,
      t.detections = s.detections) ∧
    (detectFaces DetectOutcome.throws s).log = ["Detection Error:"] ∧
    ((detectFaces DetectOutcome.throws s).finalState s).detections
      = s.detections ∧
    ((detectFaces DetectOutcome.throws s).finalState s).isLoading = false ∧
    (∀ o : DetectOutcome, ((detectFaces o s).finalState s).isLoading = false) := by
  refine ⟨by simp [detectFaces, hg], ?_, by simp [detectFaces, hg],
    by simp [detectFaces, hg, DetectRun.finalState],
    by simp [detectFaces, hg, DetectRun.finalState], ?_⟩
  · intro t ht
    simp only [detectFaces, hg, if_true, List.mem_cons, List.not_mem_nil,
      or_false] at ht
    rcases ht with rfl | rfl <;> rfl
  · intro o
    cases o with
    | throws => simp [detectFaces, hg, DetectRun.finalState]
    | returns preds =>
        by_cases hp : preds.length > 0 <;>
          simp [detectFaces, hg, hp, DetectRun.finalState]

/-- C3, witness at the concrete review state (guard satisfied). -/
theorem c3_detectFaces_throws_witness :
    (detectFaces DetectOutcome.throws reviewState).trace.map (fun t => t.isLoading)
      = [true, false] ∧
    (∀ t ∈ (detectFaces DetectOutcome.throws reviewState).trace,
      t.detections = reviewState.detections) ∧
    (detectFaces DetectOutcome.throws reviewState).log = ["Detection Error:"] ∧
    ((detectFaces DetectOutcome.throws reviewState).finalState reviewState).detections
      = reviewState.detections ∧
    ((detectFaces DetectOutcome.throws reviewState).finalState reviewState).isLoading
      = false ∧
    (∀ o : DetectOutcome,
      ((detectFaces o reviewState).finalState reviewState).isLoading = false) :=
  c3_detectFaces_throws reviewState (by decide)

/-- C4: a completed `detectFaces` call under a satisfied guard replaces
the detection set wholesale with the mapped predictions in model return
order — the empty set for zero predictions — and the rendered detection
count equals the number of predictions. -/
theorem c4_detectFaces_result (s : ScreenState) (preds : List Prediction)
    (hg : detectGuard s = true) :
    ((detectFaces (DetectOutcome.returns preds) s).finalState s).detections
      = preds.map mapPrediction ∧
    (preds = [] →
      ((detectFaces (DetectOutcome.returns preds) s).finalState s).detections
        = []) ∧
    ((detectFaces (DetectOutcome.returns preds) s).finalState s).detections.length
      = preds.length ∧
    (s.hasPermission = some true →
      (render ((detectFaces (DetectOutcome.returns preds) s).finalState s)).shownDetections.length
        = preds.length) := by
  have hdet :
      ((detectFaces (DetectOutcome.returns preds) s).finalState s).detections
        = preds.map mapPrediction := by
    by_cases hp : preds.length > 0
    · simp [detectFaces, hg, hp, DetectRun.finalState]
    · have hnil : preds = [] := List.length_eq_zero.mp (by omega)
      subst hnil
      simp [detectFaces, hg, DetectRun.finalState]
  refine ⟨hdet, fun hp => by subst hp; simp [hdet], by simp [hdet],
    fun hperm => ?_⟩
  have hframe := detectFaces_finalState_frame (DetectOutcome.returns preds) s
  have hguard := hg
  simp only [detectGuard, Bool.and_eq_true] at hguard
  rw [render_shownDetections_length _ (by rw [hframe.1, hperm])
    (by rw [hframe.2]; exact hguard.1), hdet, List.length_map]

/-- C4, witness at the concrete review state with one prediction. -/
theorem c4_detectFaces_result_witness :
    ((detectFaces (DetectOutcome.returns [samplePrediction]) reviewState).finalState
        reviewState).detections = [samplePrediction].map mapPrediction ∧
    ([samplePrediction] = ([] : List Prediction) →
      ((detectFaces (DetectOutcome.returns [samplePrediction]) reviewState).finalState
          reviewState).detections = []) ∧
    ((detectFaces (DetectOutcome.returns [samplePrediction]) reviewState).finalState
        reviewState).detections.length = [samplePrediction].length ∧
    (reviewState.hasPermission = some true →
      (render ((detectFaces (DetectOutcome.returns [samplePrediction])
          reviewState).finalState reviewState)).shownDetections.length
        = [samplePrediction].length) :=
  c4_detectFaces_result reviewState [samplePrediction] (by decide)

/-- C5: each mapped detection exposes exactly 5 landmarks whose part
names follow the fixed order left_eye, right_eye, nose, mouth_left,
mouth_right, and the i-th landmark's coordinates are the two entries of
the i-th row of the raw prediction's landmarks array. -/
theorem c5_mapPrediction_landmarks (p : Prediction) (i : Nat) (x y : Rat)
    (hi : i < 5) (hp : p.landmarks.get? i = some [x, y]) :
    (mapPrediction p).landmarks.length = 5 ∧
    (mapPrediction p).landmarks.map (fun l => l.part) = landmarkOrder ∧
    (mapPrediction p).landmarks.get? i
      = some { part := landmarkOrder.getD i "", x := x, y := y } := by
  have hD : p.landmarks[i]? = some [x, y] := by
    rw [← List.get?_eq_getElem?]
    exact hp
  refine ⟨rfl, rfl, ?_⟩
  interval_cases i <;>
    simp [mapPrediction, landmarkAt, landmarkOrder, List.getD_eq_getElem?_getD, hD]

/-- C5, witness at the concrete prediction, first landmark row. -/
theorem c5_mapPrediction_landmarks_witness :
    (mapPrediction samplePrediction).landmarks.length = 5 ∧
    (mapPrediction samplePrediction).landmarks.map (fun l => l.part)
      = landmarkOrder ∧
    (mapPrediction samplePrediction).landmarks.get? 0
      = some { part := landmarkOrder.getD 0 "", x := 10, y := 20 } :=
  c5_mapPrediction_landmarks samplePrediction 0 10 20 (by decide) (by decide)

/-- C6: a denied permission response renders the static access-denied
text, and no sequence of in-session events ever reaches the camera view
(permission is never written again after the mount effect); a granted
response with no stored image renders the live camera view. -/
theorem c6_permission_gating :
    (∀ (s : ScreenState), s.hasPermission = some false →
      render s = View.noAccessText ∧
      ∀ evs : List SessionEvent,
        render (steps evs s) = View.noAccessText ∧
        (render (steps evs s)).isCameraView = false) ∧
    (∀ (s : ScreenState), s.hasPermission = some true → s.image = none →
      render s = View.cameraView) := by
  have hr : ∀ (s' : ScreenState), s'.hasPermission = some false →
      render s' = View.noAccessText := by
    intro s' h'
    simp [render, h']
  constructor
  · intro s h
    refine ⟨hr s h, fun evs => ?_⟩
    have hp : (steps evs s).hasPermission = some false := by
      rw [steps_hasPermission, h]
    exact ⟨hr _ hp, by rw [hr _ hp]; rfl⟩
  · intro s h hi
    simp [render, h, hi, jsTruthyStr]

/-- C6, witness: a denied state stays on the access-denied text through
a concrete event sequence, and the granted initial state shows the
camera view. -/
theorem c6_permission_gating_witness :
    render deniedState = View.noAccessText ∧
    render (steps [SessionEvent.modelLoadDone,
      SessionEvent.capturePress true "photo1.jpg",
      SessionEvent.detectPress (DetectOutcome.returns [samplePrediction]),
      SessionEvent.resetPress] deniedState) = View.noAccessText ∧
    (render (steps [SessionEvent.modelLoadDone,
      SessionEvent.capturePress true "photo1.jpg",
      SessionEvent.detectPress (DetectOutcome.returns [samplePrediction]),
      SessionEvent.resetPress] deniedState)).isCameraView = false ∧
    render grantedState = View.cameraView := by
  have h := c6_permission_gating
  exact ⟨(h.1 deniedState rfl).1, ((h.1 deniedState rfl).2 _).1,
    ((h.1 deniedState rfl).2 _).2, h.2 grantedState rfl rfl⟩

/-- C7: in a review-view state with an empty detection set, the no-face
message shows exactly when the loading flag is false, and in no state do
the loading indicator and the no-face message render together. -/
theorem c7_noFace_iff_notLoading (s : ScreenState)
    (hperm : s.hasPermission = some true) (himg : jsTruthyStr s.image = true)
    (hdet : s.detections = []) :
    (render s).showsNoFace = !s.isLoading ∧
    ∀ s' : ScreenState,
      ¬((render s').showsLoading = true ∧ (render s').showsNoFace = true) := by
  refine ⟨?_, render_loading_suppresses_noFace⟩
  simp [render, hperm, himg, hdet, View.showsNoFace]

/-- C7, witness at the concrete review state with no detections. -/
theorem c7_noFace_iff_notLoading_witness :
    (render emptyReviewState).showsNoFace = !emptyReviewState.isLoading ∧
    ∀ s' : ScreenState,
      ¬((render s').showsLoading = true ∧ (render s').showsNoFace = true) :=
  c7_noFace_iff_notLoading emptyReviewState rfl (by decide) rfl

end DisplayImage
